import Mathlib

/-!
Shallow embedding of the `yetty` Python plugin
(`src/yetty/plugins/python/python.cpp`) and proofs about its claims.

The embedded CPython interpreter and the WebGPU driver are external to the
translated unit; they are modelled as oracles (`Env`, `GpuEnv`, `RenderEnv`)
that the translated functions consult at exactly the points where the C++
code calls into `Python.h` or `webgpu.h`.  The translated functions below
follow the C++ control flow line by line.
-/

namespace Yetty

/-- The `Result`/`Err` error value of the host framework: a message plus the
chain of messages of the wrapped causes (``Err("msg", prevResult)`` chains
the previous result's error).  `message` is what `error().message()`
returns. -/
structure Error where
  message : String
  context : List String
  deriving DecidableEq, Repr

/-- Wrap an existing error (as ``Err(m, prevResult)`` does) with a new outer message. -/
def Error.wrap (m : String) (e : Error) : Error :=
  ⟨m, e.message :: e.context⟩

/-- All message texts reachable from an error, outermost first. -/
def Error.texts (e : Error) : List String :=
  e.message :: e.context

/-- Outcome of letting the embedded interpreter run one chunk of code with
`stdout`/`stderr` redirected: the text the chunk wrote to the redirected
streams before finishing or failing, whether it raised, and the traceback
text that `PyErr_Print` would emit when it raised. -/
structure PyRunResult where
  output : String
  raised : Bool
  trace : String
  deriving DecidableEq, Repr

/-- External world oracle: the behaviour of the CPython interpreter
(`pyRun`, a function of the chunks executed so far — they determine the
persistent `__main__` namespace — and the new chunk) and of the filesystem
(`files p` is the content of `p` when `p` names a readable file). -/
structure Env where
  pyRun : List String → String → PyRunResult
  files : String → Option String

/-- Mutable state of `PythonPlugin` relevant to execution: the
`_py_initialized` flag, the chunks executed against the persistent
`__main__` namespace so far, and everything written to the real process
console (where `PyErr_Print` writes after the redirection is undone). -/
structure PluginState where
  py_initialized : Bool
  history : List String
  console : String
  deriving DecidableEq, Repr

/-- Model of `PythonPlugin::execute` (python.cpp:206-268).  Redirects
`sys.stdout`/`sys.stderr` into a `StringIO`, runs the chunk against the
persistent `__main__` dict, reads the captured text back, restores the
streams, and on failure drains the traceback to the (real) console via
`PyErr_Print` and returns an error carrying the captured text.  (In an
initialized interpreter the `sys`/`io` imports at the top of the function
cannot fail; they are not modelled as failure points.) -/
def PythonPlugin.execute (env : Env) (st : PluginState) (code : String) :
    Except Error String × PluginState :=
  if st.py_initialized = false then
    (Except.error ⟨"Python not initialized", []⟩, st)
  else
    let r := env.pyRun st.history code
    let st' : PluginState := { st with history := st.history ++ [code] }
    if r.raised then
      (Except.error ⟨"Python execution error: " ++ r.output, []⟩,
        { st' with console := st'.console ++ r.trace })
    else
      (Except.ok r.output, st')

/-- Model of `PythonPlugin::runFile` (python.cpp:270-286): open and read the file,
delegate the content to `execute`, wrap a failing `execute` in a fresh
outer error. -/
def PythonPlugin.runFile (env : Env) (st : PluginState) (path : String) :
    Except Error Unit × PluginState :=
  match env.files path with
  | none => (Except.error ⟨"Failed to open Python file: " ++ path, []⟩, st)
  | some content =>
    match PythonPlugin.execute env st content with
    | (Except.ok _, st') => (Except.ok (), st')
    | (Except.error e, st') =>
      (Except.error (Error.wrap "Failed to execute Python file" e), st')

/-- Decides whether `needle` occurs as a contiguous run inside `hay`. -/
def occursWithin (needle : List Char) : List Char → Bool
  | [] => needle.isEmpty
  | c :: t => needle.isPrefixOf (c :: t) || occursWithin needle t

/-- An error "mentions" a string when the string occurs in one of the
message texts of its chain. -/
def Error.mentions (e : Error) (s : String) : Bool :=
  e.texts.any fun t => occursWithin s.toList t.toList

/-- Identity of a GPU object held by the layer.  Handles are modelled by
numbers so that releasing twice versus releasing once is observable. -/
inductive GpuObj where
  | bindGroup (h : Nat)
  | pipeline (h : Nat)
  | sampler (h : Nat)
  deriving DecidableEq, Repr

/-- GPU commands the layer issues besides object creation. -/
inductive GpuOp where
  | release (o : GpuObj)
  | draw
  | submit
  deriving DecidableEq, Repr

/-- Mutable state of one `PythonLayer`. -/
structure LayerState where
  payload : String
  script_path : String
  output : String
  input_buffer : String
  visible : Bool
  failed : Bool
  initialized : Bool
  wgpu_handles_set : Bool
  pygfx_initialized : Bool
  render_frame_func : Bool
  pygfx_module : Bool
  blit_initialized : Bool
  blit_sampler : Option Nat
  blit_pipeline : Option Nat
  blit_bind_group : Option Nat
  deriving DecidableEq, Repr

/-- A freshly constructed `PythonLayer` (the C++ member initializers). -/
def LayerState.initial : LayerState :=
  { payload := "", script_path := "", output := "", input_buffer := ""
    visible := true, failed := false, initialized := false
    wgpu_handles_set := false, pygfx_initialized := false
    render_frame_func := false, pygfx_module := false
    blit_initialized := false, blit_sampler := none
    blit_pipeline := none, blit_bind_group := none }

/-- Model of `PythonLayer::init` (python.cpp:299-331).  A non-empty payload that
opens as a readable file is run as a script file via `runFile`; any other
non-empty payload is executed as inline code; in both branches a failure
is only recorded in `_output` as `"Error: ..."` and `init` returns
success. -/
def PythonLayer.init (env : Env) (pst : PluginState) (st : LayerState)
    (payload : String) : Except Error Unit × LayerState × PluginState :=
  let st0 : LayerState := { st with payload := payload }
  if payload = "" then
    (Except.ok (), { st0 with initialized := true }, pst)
  else
    match env.files payload with
    | some _ =>
      let st1 : LayerState := { st0 with script_path := payload }
      match PythonPlugin.runFile env pst payload with
      | (Except.ok _, pst') =>
        (Except.ok (),
          { st1 with output := "Script executed: " ++ payload,
                     initialized := true }, pst')
      | (Except.error e, pst') =>
        (Except.ok (),
          { st1 with output := "Error: " ++ e.message,
                     initialized := true }, pst')
    | none =>
      match PythonPlugin.execute env pst payload with
      | (Except.ok out, pst') =>
        (Except.ok (), { st0 with output := out, initialized := true }, pst')
      | (Except.error e, pst') =>
        (Except.ok (),
          { st0 with output := "Error: " ++ e.message,
                     initialized := true }, pst')

/-- Model of `PythonPlugin::createLayer` (python.cpp:197-204): construct a fresh
layer, run `init` on the payload, and propagate an `init` failure wrapped
with context. -/
def PythonPlugin.createLayer (env : Env) (pst : PluginState)
    (payload : String) : Except Error (LayerState × PluginState) :=
  match PythonLayer.init env pst LayerState.initial payload with
  | (Except.ok _, st, pst') => Except.ok (st, pst')
  | (Except.error e, _, _) =>
    Except.error (Error.wrap "Failed to init PythonLayer" e)

/-- Model of `PythonLayer::dispose` (python.cpp:333-376).  Releases each blit GPU
object only when its handle is non-null and nulls the handle right after;
the Python-side references are dropped (through the interpreter only when
the plugin is still initialized) and the flags are reset.  Returns the
released GPU objects in order. -/
def PythonLayer.dispose (pluginAlive : Bool) (st : LayerState) :
    Except Error Unit × LayerState × List GpuObj :=
  let (rel1, st1) :=
    match st.blit_bind_group with
    | some h => ([GpuObj.bindGroup h], { st with blit_bind_group := none })
    | none => ([], st)
  let (rel2, st2) :=
    match st1.blit_pipeline with
    | some h => (rel1 ++ [GpuObj.pipeline h], { st1 with blit_pipeline := none })
    | none => (rel1, st1)
  let (rel3, st3) :=
    match st2.blit_sampler with
    | some h => (rel2 ++ [GpuObj.sampler h], { st2 with blit_sampler := none })
    | none => (rel2, st2)
  let st4 : LayerState := { st3 with blit_initialized := false }
  -- Python-side cleanup: with a live interpreter (`pluginAlive`) the cached
  -- references are DECREF'd and the module's `cleanup` hook invoked before
  -- the pointers are nulled; with a torn-down interpreter the pointers are
  -- only nulled.  On this state either path nulls both references; the
  -- interpreter-side reference counting is outside the model.
  let _ := pluginAlive
  let st5 : LayerState :=
    { st4 with render_frame_func := false, pygfx_module := false }
  (Except.ok (),
    { st5 with pygfx_initialized := false, wgpu_handles_set := false,
               initialized := false }, rel3)

/-- Model of `PythonLayer::onKey` (python.cpp:755-784).  Only key presses
(`action == 1`) are handled: Enter with a non-empty buffer executes the
buffer on the shared interpreter and appends a transcript entry to
`_output`; Backspace with a non-empty buffer drops the last character. -/
def PythonLayer.onKey (env : Env) (pst : PluginState) (st : LayerState)
    (key scancode action mods : Int) :
    Bool × LayerState × PluginState :=
  let _ := scancode
  let _ := mods
  if action ≠ 1 then (false, st, pst)
  else if key = 257 ∧ st.input_buffer ≠ "" then
    match PythonPlugin.execute env pst st.input_buffer with
    | (Except.ok out, pst') =>
      (true,
        { st with output := st.output ++ ">>> " ++ st.input_buffer ++ "\n" ++ out,
                  input_buffer := "" }, pst')
    | (Except.error e, pst') =>
      (true,
        { st with
            output := st.output ++ ">>> " ++ st.input_buffer ++ "\nError: "
              ++ e.message ++ "\n",
            input_buffer := "" }, pst')
  else if key = 259 ∧ st.input_buffer ≠ "" then
    (true, { st with input_buffer := st.input_buffer.dropRight 1 }, pst)
  else (false, st, pst)

/-- Model of `PythonLayer::onChar` (python.cpp:786-792): any codepoint below 128 is
appended to the input buffer, everything else is ignored. -/
def PythonLayer.onChar (st : LayerState) (codepoint : Nat) :
    Bool × LayerState :=
  if codepoint < 128 then
    (true, { st with input_buffer := st.input_buffer.push (Char.ofNat codepoint) })
  else
    (false, st)

/-- The spec's notion of a printable ASCII codepoint (space through
tilde), used to compare the spec's wording against `onChar`. -/
def printableAscii (codepoint : Nat) : Bool :=
  32 ≤ codepoint && codepoint ≤ 126

/-- GPU/WebGPU oracle for one `blitRenderTexture` call: the current
off-screen texture view (`yetty_wgpu_get_render_texture_view`), and the
outcome of each `wgpuDeviceCreate...` / context call the code checks.
`some h` carries the created object's handle. -/
structure GpuEnv where
  texView : Option Nat
  createSampler : Option Nat
  createShader : Bool
  createPipeline : Option Nat
  createBindGroup : Bool
  newBindGroup : Nat
  createEncoder : Bool
  surfaceView : Option Nat
  beginPass : Bool
  finishCmd : Bool
  deriving DecidableEq, Repr

/-- Model of `PythonLayer::createBlitPipeline` (python.cpp:516-662): build the
sampler, shader and fullscreen-blit pipeline once; each creation failure
returns `false` leaving whatever was already created in the fields. -/
def PythonLayer.createBlitPipeline (genv : GpuEnv) (st : LayerState) :
    Bool × LayerState :=
  if st.blit_initialized then (true, st)
  else
    match genv.createSampler with
    | none => (false, st)
    | some s =>
      let st1 : LayerState := { st with blit_sampler := some s }
      if genv.createShader = false then (false, st1)
      else
        match genv.createPipeline with
        | none => (false, st1)
        | some p =>
          (true, { st1 with blit_pipeline := some p, blit_initialized := true })

/-- Model of `PythonLayer::blitRenderTexture` (python.cpp:664-753).  Skips (returns
`false`) when the off-screen view is null; builds the pipeline lazily;
releases and rebuilds the per-frame bind group; any creation failure
(bind group, command encoder, surface view, render pass) returns `false`
for this frame only; otherwise records the draw and, when the command
buffer finishes, the submit. -/
def PythonLayer.blitRenderTexture (genv : GpuEnv) (st : LayerState) :
    Bool × LayerState × List GpuOp :=
  match genv.texView with
  | none => (false, st, [])
  | some _tv =>
    match PythonLayer.createBlitPipeline genv st with
    | (false, st1) => (false, st1, [])
    | (true, st1) =>
      let (ops0, st2) :=
        match st1.blit_bind_group with
        | some h =>
          ([GpuOp.release (GpuObj.bindGroup h)],
            { st1 with blit_bind_group := none })
        | none => ([], st1)
      if genv.createBindGroup = false then (false, st2, ops0)
      else
        let st3 : LayerState := { st2 with blit_bind_group := some genv.newBindGroup }
        if genv.createEncoder = false then (false, st3, ops0)
        else
          match genv.surfaceView with
          | none => (false, st3, ops0)
          | some _sv =>
            if genv.beginPass = false then (false, st3, ops0)
            else
              let ops1 := ops0 ++ [GpuOp.draw]
              if genv.finishCmd then (true, st3, ops1 ++ [GpuOp.submit])
              else (true, st3, ops1)

/-- Oracle for one `render` call: whether `import yetty_pygfx` succeeds,
whether the module exposes `render_frame`, the outcome of calling it
(`none` = it raised, `some b` = it returned a value of truthiness `b`),
and the GPU oracle for the blit. -/
structure RenderEnv where
  importPygfxOk : Bool
  renderFrameAttrOk : Bool
  renderFrameCall : Option Bool
  gpu : GpuEnv
  deriving DecidableEq, Repr

/-- Model of `PythonLayer::renderPygfx` (python.cpp:497-514): call the cached
`render_frame`; a raise or a falsy return yields `false`. -/
def PythonLayer.renderPygfx (renv : RenderEnv) (st : LayerState) : Bool :=
  if st.pygfx_initialized = false ∨ st.render_frame_func = false then false
  else
    match renv.renderFrameCall with
    | none => false
    | some truthy => truthy

/-- Model of `PythonLayer::render` (python.cpp:378-422).  A failed layer returns an
error immediately; an invisible layer returns success immediately; a
visible one binds the GPU handles once, lazily caches
`yetty_pygfx.render_frame`, and when the entry point is cached renders and
blits best-effort, always returning success. -/
def PythonLayer.render (renv : RenderEnv) (st : LayerState) :
    Except Error Unit × LayerState × List GpuOp :=
  if st.failed then
    (Except.error ⟨"PythonLayer already failed", []⟩, st, [])
  else if st.visible = false then
    (Except.ok (), st, [])
  else
    let st1 : LayerState :=
      if st.wgpu_handles_set = false then { st with wgpu_handles_set := true }
      else st
    let st2 : LayerState :=
      if st1.render_frame_func = false then
        if renv.importPygfxOk then
          let sm : LayerState := { st1 with pygfx_module := true }
          if renv.renderFrameAttrOk then
            { sm with render_frame_func := true, pygfx_initialized := true }
          else sm
        else st1
      else st1
    if st2.pygfx_initialized ∧ st2.render_frame_func then
      let _pygfxOk := PythonLayer.renderPygfx renv st2
      match PythonLayer.blitRenderTexture renv.gpu st2 with
      | (_blitOk, st3, ops) => (Except.ok (), st3, ops)
    else
      (Except.ok (), st2, [])

/-- An interactive REPL round: type `h`, type `i`, press Enter
(codepoints 104 and 105; GLFW key 257, action 1).  Returns the layer and
plugin state after the keystrokes. -/
def replSession (env : Env) (pst : PluginState) (st : LayerState) :
    LayerState × PluginState :=
  let st1 := (PythonLayer.onChar st 104).2
  let st2 := (PythonLayer.onChar st1 105).2
  let r := PythonLayer.onKey env pst st2 257 0 1 0
  (r.2.1, r.2.2)

/-! Concrete worlds used to instantiate the theorems. -/

/-- A world with no readable files where every chunk runs silently. -/
def envNone : Env :=
  { pyRun := fun _ _ => { output := "", raised := false, trace := "" }
    files := fun _ => none }

/-- A world where the chunk `hi` raises a `NameError` and everything else
runs silently; no readable files. -/
def envHi : Env :=
  { pyRun := fun _ c =>
      if c = "hi" then
        { output := "", raised := true,
          trace := "NameError: name hi is not defined\n" }
      else { output := "", raised := false, trace := "" }
    files := fun _ => none }

/-- A world where the doubling scenario chunk prints `42`; no readable
files. -/
def env42 : Env :=
  { pyRun := fun _ c =>
      if c = "x = 21\nprint(x*2)\n" then
        { output := "42\n", raised := false, trace := "" }
      else { output := "", raised := false, trace := "" }
    files := fun _ => none }

/-- A world with one readable file `script.py` whose content raises. -/
def envBoom : Env :=
  { pyRun := fun _ c =>
      if c = "boom" then
        { output := "", raised := true, trace := "Traceback\n" }
      else { output := "", raised := false, trace := "" }
    files := fun p => if p = "script.py" then some "boom" else none }

/-- Plugin state with an initialized interpreter and a clean slate. -/
def pst0 : PluginState :=
  { py_initialized := true, history := [], console := "" }

/-- Plugin state whose interpreter was never initialized. -/
def pstOff : PluginState :=
  { py_initialized := false, history := [], console := "" }

/-- A GPU world where every creation fails and no view exists. -/
def gpuNone : GpuEnv :=
  { texView := none, createSampler := none, createShader := false
    createPipeline := none, createBindGroup := false, newBindGroup := 0
    createEncoder := false, surfaceView := none, beginPass := false
    finishCmd := false }

/-- A GPU world with a view in which the per-frame bind-group creation
fails but everything else succeeds. -/
def gpuBindGroupFails : GpuEnv :=
  { texView := some 7, createSampler := some 1, createShader := true
    createPipeline := some 2, createBindGroup := false, newBindGroup := 9
    createEncoder := true, surfaceView := some 8, beginPass := true
    finishCmd := true }

/-- A render world where nothing GPU- or import-side works. -/
def renvNone : RenderEnv :=
  { importPygfxOk := false, renderFrameAttrOk := false
    renderFrameCall := none, gpu := gpuNone }

/-- A layer stuck in the sticky failed state. -/
def failedLayer : LayerState :=
  { LayerState.initial with failed := true }

/-- A healthy but invisible layer. -/
def invisLayer : LayerState :=
  { LayerState.initial with visible := false }

/-- A layer whose blit pipeline and sampler are already built. -/
def builtLayer : LayerState :=
  { LayerState.initial with
    blit_initialized := true
    blit_sampler := some 1
    blit_pipeline := some 2
    blit_bind_group := some 3 }

/-- A layer whose input buffer holds `ab`. -/
def bufLayer : LayerState :=
  { LayerState.initial with input_buffer := "ab" }

/-- Helper: a list occurs within itself prefixed by anything. -/
theorem occursWithin_append_self (pre s : List Char) :
    occursWithin s (pre ++ s) = true := by
  induction pre with
  | nil =>
    cases s with
    | nil => rfl
    | cons c t =>
      simp [occursWithin, List.isPrefixOf_iff_prefix]
  | cons c t ih =>
    simp only [List.cons_append, occursWithin, Bool.or_eq_true]
    exact Or.inr ih

/-- C1, counterexample: the claim that a failed layer's `render` "returns
success trivially" is false — on a layer with `_failed` set, `render`
returns the error "PythonLayer already failed". -/
theorem render_failed_claim_counterexample :
    (PythonLayer.render renvNone failedLayer).1
      = Except.error ⟨"PythonLayer already failed", []⟩ ∧
    (PythonLayer.render renvNone failedLayer).1 ≠ Except.ok () := by
  refine ⟨rfl, ?_⟩
  intro h
  rw [show (PythonLayer.render renvNone failedLayer).1
        = Except.error ⟨"PythonLayer already failed", []⟩ from rfl] at h
  exact Except.noConfusion h

/-- C1, amended: a layer whose `_failed` flag is set has `render` return
the error "PythonLayer already failed" while changing nothing and issuing
no GPU work; an invisible (and not failed) layer is the branch that
returns success trivially with no work done. -/
theorem render_failed_errors_invisible_trivial (renv : RenderEnv)
    (st : LayerState) :
    (st.failed = true →
      PythonLayer.render renv st
        = (Except.error ⟨"PythonLayer already failed", []⟩, st, [])) ∧
    (st.failed = false → st.visible = false →
      PythonLayer.render renv st = (Except.ok (), st, [])) := by
  constructor
  · intro h
    simp [PythonLayer.render, h]
  · intro h1 h2
    simp [PythonLayer.render, h1, h2]

/-- C1, witness for the amended theorem at concrete layers. -/
theorem render_failed_errors_invisible_trivial_witness :
    PythonLayer.render renvNone failedLayer
      = (Except.error ⟨"PythonLayer already failed", []⟩, failedLayer, []) ∧
    PythonLayer.render renvNone invisLayer
      = (Except.ok (), invisLayer, []) :=
  ⟨(render_failed_errors_invisible_trivial renvNone failedLayer).1 rfl,
   (render_failed_errors_invisible_trivial renvNone invisLayer).2 rfl rfl⟩

/-- C2: with an initialized interpreter, a chunk whose run raises no error
has `execute` return exactly the text the chunk wrote to the redirected
standard output (the empty string when it wrote nothing); the chunk is
recorded against the persistent namespace and nothing is written to the
real process console during the call. -/
theorem execute_captures_output (env : Env) (st : PluginState)
    (code : String) (hinit : st.py_initialized = true)
    (hok : (env.pyRun st.history code).raised = false) :
    PythonPlugin.execute env st code
      = (Except.ok (env.pyRun st.history code).output,
          { st with history := st.history ++ [code] }) ∧
    (PythonPlugin.execute env st code).2.console = st.console := by
  constructor
  · simp [PythonPlugin.execute, hinit, hok]
  · simp [PythonPlugin.execute, hinit, hok]

/-- C2, witness: the doubling chunk returns exactly `42\n` and leaves the
console untouched. -/
theorem execute_captures_output_witness :
    pst0.py_initialized = true ∧
    (env42.pyRun pst0.history "x = 21\nprint(x*2)\n").raised = false ∧
    PythonPlugin.execute env42 pst0 "x = 21\nprint(x*2)\n"
      = (Except.ok "42\n",
          { pst0 with history := ["x = 21\nprint(x*2)\n"] }) := by
  refine ⟨rfl, rfl, ?_⟩
  exact (execute_captures_output env42 pst0 "x = 21\nprint(x*2)\n" rfl rfl).1

/-- C3: with an initialized interpreter, a chunk whose run raises has
`execute` return an error whose carried text is the fixed marker followed
by exactly the output captured before the failure, while the diagnostic
traceback (and not that error text) is appended to the real process
console. -/
theorem execute_error_diverts_trace (env : Env) (st : PluginState)
    (code : String) (hinit : st.py_initialized = true)
    (hraise : (env.pyRun st.history code).raised = true) :
    PythonPlugin.execute env st code
      = (Except.error
            ⟨"Python execution error: " ++ (env.pyRun st.history code).output,
              []⟩,
          { st with history := st.history ++ [code],
                    console := st.console ++ (env.pyRun st.history code).trace }) := by
  simp [PythonPlugin.execute, hinit, hraise]

/-- C3, witness: the undefined-name chunk `hi` yields the captured-output
error while only the traceback reaches the console. -/
theorem execute_error_diverts_trace_witness :
    pst0.py_initialized = true ∧
    (envHi.pyRun pst0.history "hi").raised = true ∧
    PythonPlugin.execute envHi pst0 "hi"
      = (Except.error ⟨"Python execution error: ", []⟩,
          { pst0 with history := ["hi"],
                      console := "NameError: name hi is not defined\n" }) := by
  refine ⟨rfl, rfl, ?_⟩
  exact execute_error_diverts_trace envHi pst0 "hi" rfl rfl

/-- C4, counterexample: codepoint 10 (a newline, not printable ASCII) is
nevertheless appended by `onChar`, so "appended if and only if printable
ASCII" is false. -/
theorem onChar_printable_counterexample :
    printableAscii 10 = false ∧
    (PythonLayer.onChar LayerState.initial 10).1 = true ∧
    (PythonLayer.onChar LayerState.initial 10).2.input_buffer = "\n" := by
  refine ⟨rfl, rfl, ?_⟩
  decide

/-- C4, amended: `onChar` appends the codepoint if and only if it is below
128 (all of ASCII, printable or not); `onKey` with Backspace (key 259) on
a key press (action 1) removes the last character of a non-empty input
buffer. -/
theorem onChar_ascii_onKey_backspace (env : Env) (pst : PluginState)
    (st : LayerState) (c : Nat) (scancode mods : Int) :
    (c < 128 →
      PythonLayer.onChar st c
        = (true,
            { st with input_buffer := st.input_buffer.push (Char.ofNat c) })) ∧
    (128 ≤ c → PythonLayer.onChar st c = (false, st)) ∧
    (st.input_buffer ≠ "" →
      PythonLayer.onKey env pst st 259 scancode 1 mods
        = (true, { st with input_buffer := st.input_buffer.dropRight 1 },
            pst)) := by
  refine ⟨?_, ?_, ?_⟩
  · intro h
    simp [PythonLayer.onChar, h]
  · intro h
    simp [PythonLayer.onChar, Nat.not_lt.mpr h]
  · intro h
    simp [PythonLayer.onKey, h]

/-- C4, witness: a letter is appended, a non-ASCII codepoint is ignored,
and Backspace shortens the buffer `ab` to `a`. -/
theorem onChar_ascii_onKey_backspace_witness :
    PythonLayer.onChar LayerState.initial 97
      = (true, { LayerState.initial with input_buffer := "a" }) ∧
    PythonLayer.onChar LayerState.initial 200 = (false, LayerState.initial) ∧
    PythonLayer.onKey envNone pst0 bufLayer 259 0 1 0
      = (true, { bufLayer with input_buffer := "a" }, pst0) := by
  refine ⟨?_, ?_, ?_⟩
  · exact (onChar_ascii_onKey_backspace envNone pst0 LayerState.initial
      97 0 0).1 (by decide)
  · exact (onChar_ascii_onKey_backspace envNone pst0 LayerState.initial
      200 0 0).2.1 (by decide)
  · exact (onChar_ascii_onKey_backspace envNone pst0 bufLayer
      259 0 0).2.2 (by decide)

/-- Helper: a string occurs in any string it terminates. -/
theorem Error.mentions_of_append (pre s : String) (ctx : List String) :
    Error.mentions ⟨pre ++ s, ctx⟩ s = true := by
  unfold Error.mentions Error.texts
  simp only [List.any_cons, Bool.or_eq_true]
  left
  have h : (pre ++ s).toList = pre.toList ++ s.toList := String.data_append pre s
  rw [show (String.toList (pre ++ s)) = pre.toList ++ s.toList from h]
  exact occursWithin_append_self pre.toList s.toList

/-- C5, counterexample: when the file opens but its content fails to
execute, `runFile` returns a failure whose message chain nowhere mentions
the path — so not every failure it returns is wrapped with the path for
context. -/
theorem runFile_path_counterexample :
    (PythonPlugin.runFile envBoom pst0 "script.py").1
      = Except.error
          ⟨"Failed to execute Python file", ["Python execution error: "]⟩ ∧
    Error.mentions
        ⟨"Failed to execute Python file", ["Python execution error: "]⟩
        "script.py" = false := by
  exact ⟨rfl, by decide⟩

/-- C5, amended: `runFile` reads the file content and delegates it to
`execute`.  A file that cannot be opened yields an error that carries the
path; a failing `execute` is wrapped in the fixed message
"Failed to execute Python file" chaining the execute error, which does not
carry the path. -/
theorem runFile_reads_and_wraps (env : Env) (pst : PluginState)
    (path content : String) :
    (env.files path = none →
      PythonPlugin.runFile env pst path
        = (Except.error ⟨"Failed to open Python file: " ++ path, []⟩, pst) ∧
      Error.mentions ⟨"Failed to open Python file: " ++ path, []⟩ path
        = true) ∧
    (env.files path = some content →
      PythonPlugin.runFile env pst path
        = (match PythonPlugin.execute env pst content with
            | (Except.ok _, pst') => (Except.ok (), pst')
            | (Except.error e, pst') =>
              (Except.error (Error.wrap "Failed to execute Python file" e),
                pst'))) := by
  constructor
  · intro h
    refine ⟨?_, Error.mentions_of_append "Failed to open Python file: " path []⟩
    simp [PythonPlugin.runFile, h]
  · intro h
    simp only [PythonPlugin.runFile, h]

/-- C5, witness: a missing path produces the path-carrying open error; the
readable `script.py` whose content raises produces the generic wrap. -/
theorem runFile_reads_and_wraps_witness :
    (PythonPlugin.runFile envBoom pst0 "missing.py"
        = (Except.error ⟨"Failed to open Python file: missing.py", []⟩,
            pst0) ∧
      Error.mentions ⟨"Failed to open Python file: missing.py", []⟩
        "missing.py" = true) ∧
    PythonPlugin.runFile envBoom pst0 "script.py"
      = (Except.error
            ⟨"Failed to execute Python file", ["Python execution error: "]⟩,
          { pst0 with history := ["boom"], console := "Traceback\n" }) := by
  constructor
  · exact (runFile_reads_and_wraps envBoom pst0 "missing.py" "").1 rfl
  · exact (runFile_reads_and_wraps envBoom pst0 "script.py" "boom").2 rfl

/-- Helper: with an initialized interpreter, `execute` always records the
chunk against the persistent namespace, raised or not. -/
theorem execute_appends_history (env : Env) (st : PluginState)
    (code : String) (h : st.py_initialized = true) :
    (PythonPlugin.execute env st code).2.history = st.history ++ [code] := by
  simp only [PythonPlugin.execute, h]
  split
  · simp_all
  · split <;> rfl

/-- C6, counterexample: the empty payload names no readable file, yet
`init` executes nothing at all — no chunk reaches the interpreter — so
"for every payload string ... executes the payload as inline code" fails
at the empty payload. -/
theorem init_empty_payload_counterexample :
    envNone.files "" = none ∧
    (PythonLayer.init envNone pst0 LayerState.initial "").1 = Except.ok () ∧
    (PythonLayer.init envNone pst0 LayerState.initial "").2.2.history = [] ∧
    pst0.history ++ [""] ≠ ([] : List String) := by
  refine ⟨rfl, rfl, rfl, ?_⟩
  decide

/-- C6, amended: every non-empty payload that does not name a readable
file is executed as inline code by `init` (which returns success and
records the execute outcome in `_output`); with an initialized interpreter
the payload chunk reaches the shared namespace, and in particular the
inline doubling chunk leaves `_output = "42\n"`. -/
theorem init_inline_code (env : Env) (pst : PluginState) (st : LayerState)
    (payload : String) (hne : payload ≠ "")
    (hfile : env.files payload = none) :
    PythonLayer.init env pst st payload
      = (Except.ok (),
          match PythonPlugin.execute env pst payload with
          | (Except.ok out, pst') =>
            ({ st with payload := payload
                       output := out
                       initialized := true }, pst')
          | (Except.error e, pst') =>
            ({ st with payload := payload
                       output := "Error: " ++ e.message
                       initialized := true }, pst')) ∧
    (pst.py_initialized = true →
      (PythonLayer.init env pst st payload).2.2.history
        = pst.history ++ [payload]) ∧
    (pst.py_initialized = true →
      env.pyRun pst.history payload
        = { output := "42\n", raised := false, trace := "" } →
      (PythonLayer.init env pst st payload).2.1.output = "42\n") := by
  refine ⟨?_, ?_, ?_⟩
  · rcases hx : PythonPlugin.execute env pst payload with ⟨r, pst'⟩
    simp only [PythonLayer.init, if_neg hne, hfile, hx]
    cases r <;> rfl
  · intro hpy
    have hh := execute_appends_history env pst payload hpy
    simp only [PythonLayer.init, if_neg hne, hfile]
    rcases hx : PythonPlugin.execute env pst payload with ⟨r, pst'⟩
    rw [hx] at hh
    cases r <;> simpa using hh
  · intro hpy hrun
    simp only [PythonLayer.init, if_neg hne, hfile]
    simp [PythonPlugin.execute, hpy, hrun]

/-- C6, witness: the doubling chunk as an inline payload gives a
successful `init` with `_output = "42\n"`. -/
theorem init_inline_code_witness :
    PythonLayer.init env42 pst0 LayerState.initial "x = 21\nprint(x*2)\n"
      = (Except.ok (),
          ({ LayerState.initial with payload := "x = 21\nprint(x*2)\n"
                                     output := "42\n"
                                     initialized := true },
            { pst0 with history := ["x = 21\nprint(x*2)\n"] })) ∧
    (PythonLayer.init env42 pst0 LayerState.initial
        "x = 21\nprint(x*2)\n").2.1.output = "42\n" := by
  have h := init_inline_code env42 pst0 LayerState.initial
    "x = 21\nprint(x*2)\n" (by decide) rfl
  exact ⟨h.1, h.2.2 rfl rfl⟩

/-- C7: from an empty input buffer, typing `h` and `i` and pressing Enter
executes the chunk `hi` on the shared interpreter; when that chunk raises
(the name being undefined), the output log gains an entry starting with
">>> hi\nError:" and the input buffer is cleared. -/
theorem repl_hi_scenario (env : Env) (pst : PluginState) (st : LayerState)
    (hbuf : st.input_buffer = "")
    (hinit : pst.py_initialized = true)
    (hraise : (env.pyRun pst.history "hi").raised = true) :
    (replSession env pst st).2.history = pst.history ++ ["hi"] ∧
    (replSession env pst st).1.input_buffer = "" ∧
    ∃ t, (replSession env pst st).1.output
      = st.output ++ (">>> hi\nError:" ++ t) := by
  have hpush : (st.input_buffer.push (Char.ofNat 104)).push (Char.ofNat 105)
      = "hi" := by
    rw [hbuf]
    decide
  have hne : ("hi" : String) ≠ "" := by decide
  have h1 : (PythonLayer.onChar st 104).2
      = { st with input_buffer := st.input_buffer.push (Char.ofNat 104) } := by
    simp [PythonLayer.onChar]
  have h2 : (PythonLayer.onChar
        { st with input_buffer := st.input_buffer.push (Char.ofNat 104) } 105).2
      = { st with input_buffer := "hi" } := by
    simp [PythonLayer.onChar, hpush]
  simp only [replSession, h1, h2, PythonLayer.onKey, PythonPlugin.execute,
    hinit, hraise, hne]
  norm_num [hne]
  refine ⟨" Python execution error: "
      ++ ((env.pyRun pst.history "hi").output ++ "\n"), ?_⟩
  simp only [String.append_assoc]
  rfl

/-- C7, witness: the concrete world where `hi` raises a `NameError`. -/
theorem repl_hi_scenario_witness :
    (replSession envHi pst0 LayerState.initial).2.history = ["hi"] ∧
    (replSession envHi pst0 LayerState.initial).1.input_buffer = "" ∧
    ∃ t, (replSession envHi pst0 LayerState.initial).1.output
      = ">>> hi\nError:" ++ t := by
  have h := repl_hi_scenario envHi pst0 LayerState.initial rfl rfl rfl
  obtain ⟨h1, h2, t, ht⟩ := h
  exact ⟨h1, h2, ⟨t, ht⟩⟩

/-- C8: `dispose` returns success, and disposing the already-disposed
layer again returns success, releases no GPU object at all (every handle
was nulled right after its first release), and leaves the state
unchanged — regardless of whether the interpreter is still alive at
either call. -/
theorem dispose_twice_idempotent (alive alive2 : Bool) (st : LayerState) :
    (PythonLayer.dispose alive st).1 = Except.ok () ∧
    (PythonLayer.dispose alive2 (PythonLayer.dispose alive st).2.1).1
      = Except.ok () ∧
    (PythonLayer.dispose alive2 (PythonLayer.dispose alive st).2.1).2.2
      = [] ∧
    (PythonLayer.dispose alive2 (PythonLayer.dispose alive st).2.1).2.1
      = (PythonLayer.dispose alive st).2.1 := by
  rcases st with ⟨p, sp, o, ib, v, f, i, w, pg, rf, pm, bi, bs, bp, bg⟩
  cases bs <;> cases bp <;> cases bg <;>
    simp [PythonLayer.dispose]

/-- C9: the per-frame blit skips with `false` (no state change, no GPU
command) when the off-screen view is null; and once the blit pipeline is
built, a creation failure of the bind group, the command encoder, the
surface view or the render pass makes only that call return `false`,
issuing no draw and leaving the pipeline, the sampler and the initialized
flag in place for later frames. -/
theorem blit_skips_and_degrades (genv : GpuEnv) (st : LayerState) :
    (genv.texView = none →
      PythonLayer.blitRenderTexture genv st = (false, st, [])) ∧
    (st.blit_initialized = true →
      (genv.createBindGroup = false ∨ genv.createEncoder = false ∨
        genv.surfaceView = none ∨ genv.beginPass = false) →
      (PythonLayer.blitRenderTexture genv st).1 = false ∧
      (PythonLayer.blitRenderTexture genv st).2.1.blit_pipeline
        = st.blit_pipeline ∧
      (PythonLayer.blitRenderTexture genv st).2.1.blit_sampler
        = st.blit_sampler ∧
      (PythonLayer.blitRenderTexture genv st).2.1.blit_initialized = true ∧
      GpuOp.draw ∉ (PythonLayer.blitRenderTexture genv st).2.2) := by
  constructor
  · intro h
    simp [PythonLayer.blitRenderTexture, h]
  · intro hinit hfail
    rcases htv : genv.texView with _ | tv
    · simp [PythonLayer.blitRenderTexture, htv, hinit]
    · rcases hbg : st.blit_bind_group with _ | h3 <;>
      rcases hc1 : genv.createBindGroup <;>
      rcases hc2 : genv.createEncoder <;>
      rcases hc3 : genv.surfaceView with _ | svv <;>
      rcases hc4 : genv.beginPass <;>
        simp [PythonLayer.blitRenderTexture, PythonLayer.createBlitPipeline,
          htv, hinit, hbg, hc1, hc2, hc3, hc4] at hfail ⊢

/-- C9, witness: a null view skips; with the pipeline built, a failing
bind-group creation degrades only that frame. -/
theorem blit_skips_and_degrades_witness :
    PythonLayer.blitRenderTexture gpuNone builtLayer
      = (false, builtLayer, []) ∧
    ((PythonLayer.blitRenderTexture gpuBindGroupFails builtLayer).1
        = false ∧
      (PythonLayer.blitRenderTexture gpuBindGroupFails
          builtLayer).2.1.blit_pipeline = some 2 ∧
      (PythonLayer.blitRenderTexture gpuBindGroupFails
          builtLayer).2.1.blit_sampler = some 1 ∧
      (PythonLayer.blitRenderTexture gpuBindGroupFails
          builtLayer).2.1.blit_initialized = true ∧
      GpuOp.draw ∉
        (PythonLayer.blitRenderTexture gpuBindGroupFails builtLayer).2.2) := by
  constructor
  · exact (blit_skips_and_degrades gpuNone builtLayer).1 rfl
  · have h := (blit_skips_and_degrades gpuBindGroupFails builtLayer).2
      rfl (Or.inl rfl)
    exact ⟨h.1, h.2.1, h.2.2.1, h.2.2.2.1, h.2.2.2.2⟩

/-- C10: `init` returns success for every payload — script-file and
inline-code failures are recorded as an "Error: ..." text in `_output`,
never propagated — so `createLayer`'s error branch for a failed layer
`init` is unreachable: layer creation always succeeds. -/
theorem init_never_fails (env : Env) (pst : PluginState) (st : LayerState)
    (payload : String) :
    (PythonLayer.init env pst st payload).1 = Except.ok () ∧
    (∃ v, PythonPlugin.createLayer env pst payload = Except.ok v) ∧
    (∀ e pst', payload ≠ "" → env.files payload = none →
      PythonPlugin.execute env pst payload = (Except.error e, pst') →
      (PythonLayer.init env pst st payload).2.1.output
        = "Error: " ++ e.message) ∧
    (∀ e pst' content, payload ≠ "" → env.files payload = some content →
      PythonPlugin.runFile env pst payload = (Except.error e, pst') →
      (PythonLayer.init env pst st payload).2.1.output
        = "Error: " ++ e.message) := by
  have hok : ∀ s : LayerState, (PythonLayer.init env pst s payload).1
      = Except.ok () := by
    intro s
    rcases eq_or_ne payload "" with h | h
    · simp [PythonLayer.init, h]
    · rcases hf : env.files payload with _ | c
      · rcases hx : PythonPlugin.execute env pst payload with ⟨r, pst'⟩
        cases r <;> simp [PythonLayer.init, if_neg h, hf, hx]
      · rcases hx : PythonPlugin.runFile env pst payload with ⟨r, pst'⟩
        cases r <;> simp [PythonLayer.init, if_neg h, hf, hx]
  refine ⟨hok st, ?_, ?_, ?_⟩
  · rcases hini : PythonLayer.init env pst LayerState.initial payload
      with ⟨r, st', pst'⟩
    have hr := hok LayerState.initial
    rw [hini] at hr
    simp only at hr
    subst hr
    exact ⟨(st', pst'), by simp [PythonPlugin.createLayer, hini]⟩
  · intro e pst' hne hf hx
    simp [PythonLayer.init, if_neg hne, hf, hx]
  · intro e pst' content hne hf hx
    simp [PythonLayer.init, if_neg hne, hf, hx]

/-- C10, witness: a payload whose inline execution fails (the interpreter
was never initialized) still yields a successful `init`, with the failure
recorded in `_output`, and a successful `createLayer`. -/
theorem init_never_fails_witness :
    (PythonLayer.init envNone pstOff LayerState.initial "x").1
      = Except.ok () ∧
    (∃ v, PythonPlugin.createLayer envNone pstOff "x" = Except.ok v) ∧
    (PythonLayer.init envNone pstOff LayerState.initial "x").2.1.output
      = "Error: Python not initialized" := by
  have h := init_never_fails envNone pstOff LayerState.initial "x"
  refine ⟨h.1, h.2.1, ?_⟩
  exact h.2.2.1 ⟨"Python not initialized", []⟩ pstOff (by decide) rfl rfl

end Yetty
